import Mathlib

/-!
Shallow embedding of the kafka-microservice repository core:
the in-memory idempotent `EventStore` (src/services/eventStore.js),
the validator (src/utils/validator.js), the consumer message pipeline
(`handleMessage` / `processEvent` of the Kafka consumer service), the
producer `publishEvent`, and the HTTP controllers `generateEvent` and
`healthCheck`.

JavaScript runtime values are modelled by `JSValue`: primitives are
carried by value; arrays and plain objects are carried as opaque
reference tags (a `Nat`), matching the reference semantics of JS
equality (`Set.has` uses SameValueZero, which is reference identity for
objects). An absent object field reads as `vUndefined`.
-/

namespace KafkaMicroservice

/-- A JavaScript runtime value. Arrays and plain objects carry only an
opaque reference tag, since no code in the modelled core inspects their
contents; JS compares them by reference identity. -/
inductive JSValue where
  | vUndefined
  | vNull
  | vBool (b : Bool)
  | vNum (n : Int)
  | vStr (s : String)
  | vArr (ref : Nat)
  | vObj (ref : Nat)
deriving DecidableEq, Repr

/-- JS truthiness: `undefined`, `null`, `false`, `0` and `""` are falsy
(floating-point `NaN` does not arise in the modelled code). -/
def truthy : JSValue → Bool
  | .vUndefined => false
  | .vNull => false
  | .vBool b => b
  | .vNum n => n != 0
  | .vStr s => s != ""
  | .vArr _ => true
  | .vObj _ => true

/-- JS `typeof`. Note `typeof null`, `typeof []` and `typeof` of a plain
object are all the string `"object"`. -/
def jsTypeof : JSValue → String
  | .vUndefined => "undefined"
  | .vNull => "object"
  | .vBool _ => "boolean"
  | .vNum _ => "number"
  | .vStr _ => "string"
  | .vArr _ => "object"
  | .vObj _ => "object"

/-- The string content of a `JSValue` known to be a string. -/
def strVal : JSValue → String
  | .vStr s => s
  | _ => ""

/-- An event object as it flows through the system: field access on a JS
object, with `vUndefined` standing for an absent field. -/
structure JSEvent where
  eventId : JSValue
  userId : JSValue
  eventType : JSValue
  timestamp : JSValue
  payload : JSValue
deriving DecidableEq, Repr

/-- `Set.prototype.has` on the modelled id set (a duplicate-free list). -/
def jsSetHas (s : List JSValue) (v : JSValue) : Bool :=
  s.contains v

/-- `Set.prototype.add`: inserts only if not already present. -/
def jsSetAdd (s : List JSValue) (v : JSValue) : List JSValue :=
  if s.contains v then s else s ++ [v]

/-- The `EventStore` state: `this.events` (insertion-ordered array) and
`this.processedEventIds` (a JS `Set`, modelled as a duplicate-free list). -/
structure EventStore where
  events : List JSEvent
  processedEventIds : List JSValue
deriving DecidableEq, Repr

/-- The store as built by the constructor: both structures empty. -/
def EventStore.empty : EventStore :=
  { events := [], processedEventIds := [] }

/-- `addEvent(event)` from src/services/eventStore.js. The argument is
`none` for a null/absent argument. Returns the new store state and the
boolean result (`true` iff the event was added). The source guard is
`if (!event || !event.eventId)`, i.e. JS-falsy `eventId` also rejects. -/
def addEvent (s : EventStore) (event : Option JSEvent) : EventStore × Bool :=
  match event with
  | none => (s, false)
  | some e =>
    if !truthy e.eventId then (s, false)
    else if jsSetHas s.processedEventIds e.eventId then (s, false)
    else ({ events := s.events ++ [e],
            processedEventIds := jsSetAdd s.processedEventIds e.eventId }, true)

/-- `getAllEvents()` viewed as the returned contents (`[...this.events]`);
the aliasing/defensive-copy aspect is modelled separately on `ArrayHeap`. -/
def getAllEvents (s : EventStore) : List JSEvent :=
  s.events

/-- `getEventCount()`: `this.events.length`. -/
def getEventCount (s : EventStore) : Nat :=
  s.events.length

/-- `hasEvent(eventId)`: membership in the id set. -/
def hasEvent (s : EventStore) (eventId : JSValue) : Bool :=
  jsSetHas s.processedEventIds eventId

/-- `clear()`: resets both structures to empty. -/
def EventStore.clear (_ : EventStore) : EventStore :=
  { events := [], processedEventIds := [] }

/-- `VALID_EVENT_TYPES` from src/utils/validator.js. -/
def VALID_EVENT_TYPES : List String :=
  ["LOGIN", "LOGOUT", "PRODUCT_VIEW"]

/-- The candidate structure destructured by the validator:
`{userId, eventType, payload}`, each possibly absent (`vUndefined`). -/
structure Candidate where
  userId : JSValue
  eventType : JSValue
  payload : JSValue
deriving DecidableEq, Repr

/-- The validator result `{ valid, errors }`. -/
structure ValidationResult where
  valid : Bool
  errors : List String
deriving DecidableEq, Repr

/-- `validateEventPayload(event)` from src/utils/validator.js, line by
line: null/absent candidate short-circuits with the single error
`"Event payload is required"`; the userId and eventType checks use JS
truthiness plus `typeof`; the membership check compares against
`VALID_EVENT_TYPES`; the payload check fires iff the field is present
(`!== undefined`) and its `typeof` is not `"object"`. -/
def validateEventPayload (event : Option Candidate) : ValidationResult :=
  match event with
  | none => { valid := false, errors := ["Event payload is required"] }
  | some e =>
    let userIdErrs : List String :=
      if !truthy e.userId || jsTypeof e.userId != "string" then
        ["userId is required and must be a string"]
      else []
    let eventTypeErrs : List String :=
      if !truthy e.eventType || jsTypeof e.eventType != "string" then
        ["eventType is required and must be a string"]
      else if !(VALID_EVENT_TYPES.contains (strVal e.eventType)) then
        ["eventType must be one of: " ++ String.intercalate ", " VALID_EVENT_TYPES]
      else []
    let payloadErrs : List String :=
      if e.payload != JSValue.vUndefined && jsTypeof e.payload != "object" then
        ["payload must be an object"]
      else []
    let errors := userIdErrs ++ eventTypeErrs ++ payloadErrs
    { valid := errors.isEmpty, errors := errors }

/-- The EVENT_CONSUMED observation record written to stdout by the
consumer's `processEvent` (the `console.log(JSON.stringify({action:
'EVENT_CONSUMED', ...}))` line). -/
structure ConsumedRecord where
  eventId : JSValue
  userId : JSValue
  eventType : JSValue
deriving DecidableEq, Repr

/-- `processEvent(event)` of the Kafka consumer service, as an
exception-aware computation: `.error ()` models a JS exception escaping
`processEvent`. For `event === null` (JSON text `"null"`), reading
`event.eventId` throws inside the try block, and the catch block itself
reads `event.eventId` again and re-throws, so the exception escapes.
Otherwise: the structural check `!event.eventId || !event.userId ||
!event.eventType` returns `false` without touching the store; then the
EVENT_CONSUMED record is written to stdout BEFORE `addEvent` is called,
and the result of `addEvent` is returned. The third component collects
the EVENT_CONSUMED records emitted. -/
def processEvent (s : EventStore) (event : Option JSEvent) :
    Except Unit (EventStore × Bool × List ConsumedRecord) :=
  match event with
  | none => .error ()
  | some e =>
    if !truthy e.eventId || !truthy e.userId || !truthy e.eventType then
      .ok (s, false, [])
    else
      let consumed : ConsumedRecord :=
        { eventId := e.eventId, userId := e.userId, eventType := e.eventType }
      let r := addEvent s (some e)
      .ok (r.1, r.2, [consumed])

/-- The deserialization outcome of one Kafka message value:
`malformed` is a value on which `JSON.parse` throws; `parsed none` is the
JSON text `"null"`; `parsed (some e)` is a parsed object (a parsed JSON
scalar behaves as an object whose every field reads `undefined`, which
`parsed (some e)` with all-`vUndefined` fields represents). -/
inductive MsgContent where
  | malformed
  | parsed (event : Option JSEvent)
deriving DecidableEq, Repr

/-- The try block of the consumer's `handleMessage`: `JSON.parse` (which
throws on `malformed`) followed by `processEvent`. -/
def handleMessageTry (s : EventStore) (m : MsgContent) :
    Except Unit (EventStore × Bool × List ConsumedRecord) :=
  match m with
  | .malformed => .error ()
  | .parsed event => processEvent s event

/-- `handleMessage` of the Kafka consumer service: the try block wrapped
in the catch-all that logs and deliberately does not rethrow, so every
message yields a plain result. Every exception in the try block is
raised before any store mutation, so the catch branch leaves the store
as it was on entry. -/
def handleMessage (s : EventStore) (m : MsgContent) :
    EventStore × Bool × List ConsumedRecord :=
  match handleMessageTry s m with
  | .ok r => r
  | .error _ => (s, false, [])

/-- The consumer loop over a finite batch of delivered messages: the
`eachMessage` callback applied in order, threading the store. Returns
the final store and the per-message `wasAdded` results. -/
def runMessages (s : EventStore) (ms : List MsgContent) :
    EventStore × List Bool :=
  match ms with
  | [] => (s, [])
  | m :: rest =>
    let r := handleMessage s m
    let rec' := runMessages r.1 rest
    (rec'.1, r.2.1 :: rec'.2)

/-- Per-partition send metadata returned by the broker
(`result[0].partition` / `result[0].offset`). -/
structure KafkaMetadata where
  partition : Nat
  offset : Nat
deriving DecidableEq, Repr

/-- `publishEvent(event)` of the Kafka producer service. The broker's
behaviour on an attempted send is an oracle `broker`. If
`this.isConnected` is false the method throws
`'Producer is not connected to Kafka'` before building or sending any
message; otherwise the message is sent and the broker either returns
metadata or throws, which `publishEvent` rethrows. The second component
is the list of events actually handed to `producer.send`. -/
def publishEvent (isConnected : Bool)
    (broker : JSEvent → Except String KafkaMetadata) (event : JSEvent) :
    Except String KafkaMetadata × List JSEvent :=
  if !isConnected then
    (.error "Producer is not connected to Kafka", [])
  else
    match broker event with
    | .ok result => (.ok result, [event])
    | .error msg => (.error msg, [event])

/-- JS `String.prototype.includes(sub)`: `sub` occurs as a contiguous
substring of `s` (the only use in the source is
`error.message.includes('not connected')`). -/
def jsIncludes (s sub : String) : Bool :=
  List.IsInfix sub.toList s.toList

/-- The HTTP response produced by a controller: status code plus the
body fields the controllers set. -/
structure HttpResponse where
  statusCode : Nat
  error : Option String
  message : Option String
  eventId : Option String
deriving DecidableEq, Repr

/-- The enriched event built by `generateEvent`: generated `eventId`
(uuid), `timestamp` set to now, and `payload: payload || {}` — a falsy
payload is replaced by a fresh empty object. -/
def mkEnrichedEvent (uuid now : String) (userId eventType payload : JSValue)
    (freshObjRef : Nat) : JSEvent :=
  { eventId := .vStr uuid
    userId := userId
    eventType := eventType
    timestamp := .vStr now
    payload := if truthy payload then payload else .vObj freshObjRef }

/-- The `generateEvent` controller: validate, enrich, publish, and map
the outcome to an HTTP response. A publish error whose message contains
`'not connected'` becomes 503 Service unavailable; any other publish
error becomes 500; success becomes 201. The second component is the list
of events handed to `producer.send`. -/
def generateEvent (isConnected : Bool)
    (broker : JSEvent → Except String KafkaMetadata)
    (uuid now : String) (userId eventType payload : JSValue)
    (freshObjRef : Nat) : HttpResponse × List JSEvent :=
  let validation := validateEventPayload (some ⟨userId, eventType, payload⟩)
  if !validation.valid then
    ({ statusCode := 400, error := some "Validation failed",
       message := none, eventId := none }, [])
  else
    let event := mkEnrichedEvent uuid now userId eventType payload freshObjRef
    match publishEvent isConnected broker event with
    | (.ok _, sent) =>
      ({ statusCode := 201, error := none,
         message := some "Event published successfully",
         eventId := some uuid }, sent)
    | (.error msg, sent) =>
      if jsIncludes msg "not connected" then
        ({ statusCode := 503, error := some "Service unavailable",
           message := some "Kafka producer is not available",
           eventId := none }, sent)
      else
        ({ statusCode := 500, error := some "Internal server error",
           message := some "Failed to publish event",
           eventId := none }, sent)

/-- The health-check response body. -/
structure HealthBody where
  status : String
  timestamp : String
  service : String
  kafkaProducer : String
  processedEvents : Nat
deriving DecidableEq, Repr

/-- The `healthCheck` controller: the body always carries
`status: 'ok'`; only `kafka.producer` and the HTTP status code depend on
the producer connection state. -/
def healthCheck (isConnected : Bool) (now : String) (count : Nat) :
    Nat × HealthBody :=
  let health : HealthBody :=
    { status := "ok"
      timestamp := now
      service := "kafka-event-microservice"
      kafkaProducer := if isConnected then "connected" else "disconnected"
      processedEvents := count }
  ((if isConnected then 200 else 503), health)

/-- A heap of JS arrays of events, for the aliasing-sensitive semantics
of `getAllEvents` (the store's `this.events` is one array in the heap;
`[...this.events]` allocates a fresh one). -/
structure ArrayHeap where
  arrs : List (List JSEvent)
deriving DecidableEq, Repr

/-- Dereference an array reference. -/
def readArr (h : ArrayHeap) (r : Nat) : List JSEvent :=
  h.arrs.getD r []

/-- In-place mutation of the array behind a reference (covers removal,
appending, or arbitrary rewriting of the referenced array). -/
def writeArr (h : ArrayHeap) (r : Nat) (xs : List JSEvent) : ArrayHeap :=
  ⟨h.arrs.set r xs⟩

/-- Allocation of a fresh array holding `xs`. -/
def allocArr (h : ArrayHeap) (xs : List JSEvent) : ArrayHeap × Nat :=
  (⟨h.arrs ++ [xs]⟩, h.arrs.length)

/-- `getAllEvents()` at the heap level: `return [...this.events]`
allocates a fresh array with the same contents and returns its
reference. -/
def getAllEventsH (h : ArrayHeap) (eventsRef : Nat) : ArrayHeap × Nat :=
  allocArr h (readArr h eventsRef)

/-- `getEventCount()` at the heap level: the length of the store's own
array. -/
def getEventCountH (h : ArrayHeap) (eventsRef : Nat) : Nat :=
  (readArr h eventsRef).length

/-! Concrete fixtures used by witnesses and counterexamples. -/

/-- A well-formed concrete event. -/
def e1 : JSEvent :=
  { eventId := .vStr "evt-1", userId := .vStr "u1",
    eventType := .vStr "LOGIN", timestamp := .vStr "2026-01-01T00:00:00Z",
    payload := .vUndefined }

/-- A second well-formed concrete event with a distinct id. -/
def e2 : JSEvent :=
  { eventId := .vStr "evt-2", userId := .vStr "u2",
    eventType := .vStr "LOGOUT", timestamp := .vStr "2026-01-01T00:00:01Z",
    payload := .vUndefined }

/-- The store after consuming `e1` once. -/
def s1 : EventStore :=
  (addEvent EventStore.empty (some e1)).1

/-- An event missing its `eventId` (structurally incomplete). -/
def badEvent : JSEvent :=
  { eventId := .vUndefined, userId := .vStr "u1",
    eventType := .vStr "LOGIN", timestamp := .vUndefined,
    payload := .vUndefined }

/-- A broker oracle that rejects every send with a generic error. -/
def brokerReject : JSEvent → Except String KafkaMetadata :=
  fun _ => .error "Request timed out"

/-- A one-array heap whose array 0 is the store's events array. -/
def heap1 : ArrayHeap :=
  { arrs := [[e1]] }

/-! Theorems for the claims. -/

/-- Claim C3: `addEvent` returns false and leaves the store unchanged for
a null/absent argument, for an event lacking (JS-falsy) `eventId`, and
for an event whose `eventId` is already in the store; for every other
event it returns true, appends the event to the sequence, and records
its `eventId` in the set. -/
theorem addEvent_case_analysis :
    (∀ s : EventStore, addEvent s none = (s, false)) ∧
    (∀ (s : EventStore) (e : JSEvent), truthy e.eventId = false →
      addEvent s (some e) = (s, false)) ∧
    (∀ (s : EventStore) (e : JSEvent), truthy e.eventId = true →
      s.processedEventIds.contains e.eventId = true →
      addEvent s (some e) = (s, false)) ∧
    (∀ (s : EventStore) (e : JSEvent), truthy e.eventId = true →
      s.processedEventIds.contains e.eventId = false →
      addEvent s (some e) =
        ({ events := s.events ++ [e],
           processedEventIds := s.processedEventIds ++ [e.eventId] }, true)) := by
  refine ⟨fun s => rfl, ?_, ?_, ?_⟩
  · intro s e hid
    simp [addEvent, hid]
  · intro s e hid hdup
    have hmem : e.eventId ∈ s.processedEventIds := by simpa using hdup
    simp [addEvent, hid, jsSetHas, hmem]
  · intro s e hid hdup
    have hmem : e.eventId ∉ s.processedEventIds := by simpa using hdup
    simp [addEvent, hid, jsSetHas, jsSetAdd, hmem]

/-- Witness for C3: concrete evaluations of the null, duplicate and
fresh cases of `addEvent`. -/
theorem addEvent_case_analysis_witness :
    addEvent EventStore.empty none = (EventStore.empty, false) ∧
    addEvent EventStore.empty (some e1) =
      ({ events := [e1], processedEventIds := [JSValue.vStr "evt-1"] }, true) ∧
    addEvent s1 (some e1) = (s1, false) :=
  ⟨addEvent_case_analysis.1 EventStore.empty,
   addEvent_case_analysis.2.2.2 EventStore.empty e1 (by decide) (by decide),
   addEvent_case_analysis.2.2.1 s1 e1 (by decide) (by decide)⟩

/-- Claim C2: for an event whose `eventId` is not yet in the store,
`addEvent` then `addEvent` again with the same event returns `true` then
`false`, and afterwards `getEventCount` is exactly one greater than
before the first call. -/
theorem addEvent_twice_idempotent (s : EventStore) (e : JSEvent)
    (hid : truthy e.eventId = true)
    (hfresh : s.processedEventIds.contains e.eventId = false) :
    (addEvent s (some e)).2 = true ∧
    (addEvent (addEvent s (some e)).1 (some e)).2 = false ∧
    getEventCount (addEvent (addEvent s (some e)).1 (some e)).1 =
      getEventCount s + 1 := by
  have hmem : e.eventId ∉ s.processedEventIds := by simpa using hfresh
  simp [addEvent, hid, jsSetHas, jsSetAdd, hmem, getEventCount]

/-- Witness for C2: the double-insert law evaluated on a concrete fresh
event over the empty store. -/
theorem addEvent_twice_idempotent_witness :
    (addEvent EventStore.empty (some e1)).2 = true ∧
    (addEvent (addEvent EventStore.empty (some e1)).1 (some e1)).2 = false ∧
    getEventCount (addEvent (addEvent EventStore.empty (some e1)).1 (some e1)).1 =
      getEventCount EventStore.empty + 1 :=
  addEvent_twice_idempotent EventStore.empty e1 (by decide) (by decide)

/-- Counterexample to claim C5 as stated: on a null candidate the single
error string produced by the validator is `"Event payload is required"`,
which is not the claimed string `"payload is required"`. -/
theorem validate_null_error_string_counterexample :
    validateEventPayload none =
      { valid := false, errors := ["Event payload is required"] } ∧
    (validateEventPayload none).errors ≠ ["payload is required"] := by
  exact ⟨rfl, by decide⟩

/-- Claim C5 (amended): for a null/absent candidate the validator
short-circuits and returns invalid with exactly one error, the string
`"Event payload is required"`, and no other rule is evaluated. -/
theorem validate_null_short_circuit :
    validateEventPayload none =
      { valid := false, errors := ["Event payload is required"] } :=
  rfl

/-- Counterexample to claim C4 as stated: a candidate with an array
payload (`typeof` is `"object"` in JS) is accepted by the validator with
zero errors, although the claim requires the payload error for array
payloads. -/
theorem validate_array_payload_counterexample :
    (validateEventPayload
      (some { userId := .vStr "u1", eventType := .vStr "LOGIN",
              payload := .vArr 0 })).valid = true ∧
    (validateEventPayload
      (some { userId := .vStr "u1", eventType := .vStr "LOGIN",
              payload := .vArr 0 })).errors = [] := by
  exact ⟨rfl, rfl⟩

/-- Claim C4 (amended): for every candidate whose payload field is
present, the validator appends the payload error exactly when the JS
`typeof` of the payload is not `"object"` — scalar payloads (string,
number, boolean) get the error, but array and null payloads have
`typeof "object"` and are accepted by this rule. -/
theorem validate_payload_typeof_object (c : Candidate)
    (hp : c.payload ≠ JSValue.vUndefined) :
    ("payload must be an object" ∈ (validateEventPayload (some c)).errors ↔
      jsTypeof c.payload ≠ "object") := by
  have hbne : (c.payload != JSValue.vUndefined) = true := by
    simpa using hp
  have hne1 : "payload must be an object" ≠
      "userId is required and must be a string" := by decide
  have hne2 : "payload must be an object" ≠
      "eventType is required and must be a string" := by decide
  have hne3 : "payload must be an object" ≠
      "eventType must be one of: " ++ String.intercalate ", " VALID_EVENT_TYPES := by
    decide
  by_cases h1 : (!truthy c.userId || jsTypeof c.userId != "string") = true <;>
    by_cases h2 : (!truthy c.eventType || jsTypeof c.eventType != "string") = true <;>
      by_cases h3 : (VALID_EVENT_TYPES.contains (strVal c.eventType)) = true <;>
        by_cases h4 : jsTypeof c.payload = "object" <;>
          simp_all [validateEventPayload]

/-- Witness for C4 (amended): the spec's own example — a string payload
`"x"` draws the payload error. -/
theorem validate_payload_typeof_object_witness :
    "payload must be an object" ∈
      (validateEventPayload
        (some { userId := .vStr "u1", eventType := .vStr "LOGIN",
                payload := .vStr "x" })).errors :=
  (validate_payload_typeof_object
    { userId := .vStr "u1", eventType := .vStr "LOGIN", payload := .vStr "x" }
    (by decide)).mpr (by decide)

/-- Claim C10: the health check body always carries `status = "ok"`,
also when the producer is disconnected (where the HTTP code is 503 and
only the `kafka.producer` field and the status code differ from the
connected response). -/
theorem healthCheck_status_always_ok (now : String) (count : Nat) :
    (healthCheck false now count).2.status = "ok" ∧
    (healthCheck false now count).1 = 503 ∧
    (healthCheck false now count).2.kafkaProducer = "disconnected" ∧
    (healthCheck true now count).2.status = "ok" ∧
    (healthCheck true now count).1 = 200 ∧
    (healthCheck true now count).2.kafkaProducer = "connected" ∧
    (healthCheck false now count).2.timestamp = (healthCheck true now count).2.timestamp ∧
    (healthCheck false now count).2.service = (healthCheck true now count).2.service ∧
    (healthCheck false now count).2.processedEvents =
      (healthCheck true now count).2.processedEvents :=
  ⟨rfl, rfl, rfl, rfl, rfl, rfl, rfl, rfl, rfl⟩

/-- Counterexample to claim C1 as stated: delivering `e1` a second time
is a duplicate (`addEvent` returns false and the store is unchanged),
yet the EVENT_CONSUMED observation record is still emitted, because the
source writes it before consulting `addEvent`. -/
theorem consumed_record_on_duplicate_counterexample :
    hasEvent s1 e1.eventId = true ∧
    (handleMessage s1 (.parsed (some e1))).1 = s1 ∧
    (handleMessage s1 (.parsed (some e1))).2.1 = false ∧
    (handleMessage s1 (.parsed (some e1))).2.2 ≠ [] := by
  refine ⟨rfl, rfl, rfl, ?_⟩
  decide

/-- Claim C1 (amended): the consumer emits the EVENT_CONSUMED
observation record for every message whose event passes the structural
completeness check (`eventId`, `userId`, `eventType` all truthy),
regardless of whether `addEvent` stores it — duplicates are
re-announced, since the record is written before `addEvent` is called. -/
theorem consumed_record_iff_structural (s : EventStore) (e : JSEvent) :
    (handleMessage s (.parsed (some e))).2.2 =
      (if truthy e.eventId && truthy e.userId && truthy e.eventType then
        [{ eventId := e.eventId, userId := e.userId,
           eventType := e.eventType : ConsumedRecord }]
      else []) := by
  by_cases h : (truthy e.eventId && truthy e.userId && truthy e.eventType) = true
  · have h1 : truthy e.eventId = true := by simp_all
    have h2 : truthy e.userId = true := by simp_all
    have h3 : truthy e.eventType = true := by simp_all
    simp only [handleMessage, handleMessageTry, processEvent, h1, h2, h3, h]
    cases haa : addEvent s (some e) with
    | mk s' b => simp
  · have h' : (!truthy e.eventId || !truthy e.userId || !truthy e.eventType) = true := by
      simp only [Bool.and_eq_true] at h
      by_cases k1 : truthy e.eventId = true <;>
        by_cases k2 : truthy e.userId = true <;>
          by_cases k3 : truthy e.eventType = true <;> simp_all
    simp [handleMessage, handleMessageTry, processEvent, h', h]

/-- Claim C6: a deserialized event lacking any of `eventId`, `userId`,
`eventType` is dropped: the consumer returns false and the store is
unchanged; any per-message error (undeserializable value, null event) is
caught, leaving the store unchanged, and the loop processes every
message of a batch — no message aborts processing of subsequent ones. -/
theorem malformed_message_dropped :
    (∀ (s : EventStore) (e : JSEvent),
      (truthy e.eventId && truthy e.userId && truthy e.eventType) = false →
      handleMessage s (.parsed (some e)) = (s, false, [])) ∧
    (∀ s : EventStore, handleMessage s .malformed = (s, false, [])) ∧
    (∀ s : EventStore, handleMessage s (.parsed none) = (s, false, [])) ∧
    (∀ (s : EventStore) (ms : List MsgContent),
      (runMessages s ms).2.length = ms.length) := by
  refine ⟨?_, fun s => rfl, fun s => rfl, ?_⟩
  · intro s e h
    have h' : (!truthy e.eventId || !truthy e.userId || !truthy e.eventType) = true := by
      by_cases k1 : truthy e.eventId = true <;>
        by_cases k2 : truthy e.userId = true <;>
          by_cases k3 : truthy e.eventType = true <;> simp_all
    simp [handleMessage, handleMessageTry, processEvent, h']
  · intro s ms
    induction ms generalizing s with
    | nil => rfl
    | cons m rest ih => simp [runMessages, ih]

/-- Witness for C6: the incomplete event `badEvent` is dropped over the
empty store, and a batch of three messages (one undeserializable, one
incomplete, one well-formed) yields exactly three per-message results. -/
theorem malformed_message_dropped_witness :
    handleMessage EventStore.empty (.parsed (some badEvent)) =
      (EventStore.empty, false, []) ∧
    (runMessages EventStore.empty
      [MsgContent.malformed, .parsed (some badEvent), .parsed (some e1)]).2.length = 3 :=
  ⟨malformed_message_dropped.1 EventStore.empty badEvent (by decide),
   malformed_message_dropped.2.2.2 EventStore.empty
     [MsgContent.malformed, .parsed (some badEvent), .parsed (some e1)]⟩

/-- Claim C7: for every valid ingestion request, a publish attempted
while the producer is not connected yields HTTP 503 with no send
attempted (`publishEvent` raises its error before any send), while a
publish attempted while connected but rejected by the broker (with an
error message not containing `'not connected'`) yields HTTP 500. -/
theorem publish_unavailable_vs_server_error
    (broker : JSEvent → Except String KafkaMetadata)
    (uuid now : String) (userId eventType payload : JSValue) (ref : Nat)
    (hvalid : (validateEventPayload (some ⟨userId, eventType, payload⟩)).valid = true) :
    (∀ e : JSEvent, publishEvent false broker e =
      (.error "Producer is not connected to Kafka", [])) ∧
    (generateEvent false broker uuid now userId eventType payload ref).1.statusCode = 503 ∧
    (generateEvent false broker uuid now userId eventType payload ref).2 = [] ∧
    (∀ m : String,
      broker (mkEnrichedEvent uuid now userId eventType payload ref) = .error m →
      jsIncludes m "not connected" = false →
      (generateEvent true broker uuid now userId eventType payload ref).1.statusCode = 500) := by
  have hinc : jsIncludes "Producer is not connected to Kafka" "not connected" = true := by
    decide
  refine ⟨fun e => rfl, ?_, ?_, ?_⟩
  · simp [generateEvent, hvalid, publishEvent, hinc]
  · simp [generateEvent, hvalid, publishEvent, hinc]
  · intro m hm hni
    simp [generateEvent, hvalid, publishEvent, hm, hni]

/-- Witness for C7: with the always-rejecting broker and the concrete
valid request `{userId: "u1", eventType: "LOGIN"}`, the disconnected
publish reports 503 with nothing sent while the connected broker-side
rejection reports 500. -/
theorem publish_unavailable_vs_server_error_witness :
    (generateEvent false brokerReject "id-1" "t0" (.vStr "u1") (.vStr "LOGIN")
      .vUndefined 0).1.statusCode = 503 ∧
    (generateEvent false brokerReject "id-1" "t0" (.vStr "u1") (.vStr "LOGIN")
      .vUndefined 0).2 = [] ∧
    (generateEvent true brokerReject "id-1" "t0" (.vStr "u1") (.vStr "LOGIN")
      .vUndefined 0).1.statusCode = 500 :=
  ⟨(publish_unavailable_vs_server_error brokerReject "id-1" "t0" (.vStr "u1")
      (.vStr "LOGIN") .vUndefined 0 (by decide)).2.1,
   (publish_unavailable_vs_server_error brokerReject "id-1" "t0" (.vStr "u1")
      (.vStr "LOGIN") .vUndefined 0 (by decide)).2.2.1,
   (publish_unavailable_vs_server_error brokerReject "id-1" "t0" (.vStr "u1")
      (.vStr "LOGIN") .vUndefined 0 (by decide)).2.2.2 "Request timed out" rfl
      (by decide)⟩

/-- The lockstep invariant of the Event Store: every id in the set
corresponds to exactly one entry of the sequence, and every entry's
`eventId` is in the set. -/
def StoreInv (s : EventStore) : Prop :=
  (∀ id ∈ s.processedEventIds,
    (s.events.filter (fun e => e.eventId == id)).length = 1) ∧
  (∀ e ∈ s.events, e.eventId ∈ s.processedEventIds)

/-- States of the Event Store reachable from the empty store under its
operations; the read-only operations (`getAllEvents`, `getEventCount`,
`hasEvent`) do not change the state. -/
inductive ReachableStore : EventStore → Prop where
  | empty : ReachableStore EventStore.empty
  | add (s : EventStore) (e : Option JSEvent) :
      ReachableStore s → ReachableStore (addEvent s e).1
  | clearOp (s : EventStore) :
      ReachableStore s → ReachableStore (EventStore.clear s)

/-- `addEvent` preserves the lockstep invariant. -/
theorem storeInv_addEvent {s : EventStore} (ev : Option JSEvent)
    (h : StoreInv s) : StoreInv (addEvent s ev).1 := by
  cases ev with
  | none => exact h
  | some e =>
    by_cases hid : truthy e.eventId = true
    · by_cases hdup : e.eventId ∈ s.processedEventIds
      · have hstep : addEvent s (some e) = (s, false) := by
          simp [addEvent, hid, jsSetHas, hdup]
        rw [hstep]
        exact h
      · have hstep : addEvent s (some e) =
            ({ events := s.events ++ [e],
               processedEventIds := s.processedEventIds ++ [e.eventId] }, true) := by
          simp [addEvent, hid, jsSetHas, jsSetAdd, hdup]
        rw [hstep]
        constructor
        · intro i himem
          rcases List.mem_append.mp himem with hl | hr
          · have hne : ¬(e.eventId == i) = true := by
              simp only [beq_iff_eq]
              exact fun hc => hdup (hc ▸ hl)
            rw [List.filter_append]
            simp only [List.filter, hne, if_neg]
            simpa using h.1 i hl
          · have hieq : i = e.eventId := by simpa using hr
            have hzero : s.events.filter (fun x => x.eventId == i) = [] := by
              refine List.filter_eq_nil_iff.mpr fun x hx => ?_
              have hxmem := h.2 x hx
              simp only [beq_iff_eq]
              intro hc
              exact hdup (by rw [← hieq, ← hc]; exact hxmem)
            rw [List.filter_append, hzero]
            simp [List.filter, hieq]
        · intro x hx
          rcases List.mem_append.mp hx with hl | hr
          · exact List.mem_append.mpr (Or.inl (h.2 x hl))
          · have hxe : x = e := by simpa using hr
            subst hxe
            exact List.mem_append.mpr (Or.inr (by simp))
    · have hid' : truthy e.eventId = false := by simpa using hid
      have hstep : addEvent s (some e) = (s, false) := by
        simp [addEvent, hid']
      rw [hstep]
      exact h

/-- Claim C8: every state of the Event Store reachable from the empty
store through its operations satisfies the lockstep invariant between
the id set and the event sequence. -/
theorem eventStore_lockstep_invariant (s : EventStore)
    (h : ReachableStore s) : StoreInv s := by
  induction h with
  | empty =>
    exact ⟨by simp [EventStore.empty], by simp [EventStore.empty]⟩
  | add s' e _ ih => exact storeInv_addEvent e ih
  | clearOp s' _ _ =>
    exact ⟨by simp [EventStore.clear], by simp [EventStore.clear]⟩

/-- Witness for C8: the invariant evaluated on the concrete reachable
store holding `e1`. -/
theorem eventStore_lockstep_invariant_witness : StoreInv s1 :=
  eventStore_lockstep_invariant s1
    (ReachableStore.add EventStore.empty (some e1) ReachableStore.empty)

/-- Reading the freshly allocated array returns exactly the allocated
contents. -/
theorem readArr_alloc_fresh (h : ArrayHeap) (xs : List JSEvent) :
    readArr (allocArr h xs).1 (allocArr h xs).2 = xs := by
  simp [readArr, allocArr, List.getD_eq_getElem?_getD, List.getElem?_concat_length]

/-- Allocation does not disturb existing arrays. -/
theorem readArr_alloc_old (h : ArrayHeap) (xs : List JSEvent) (r : Nat)
    (hr : r < h.arrs.length) :
    readArr (allocArr h xs).1 r = readArr h r := by
  simp [readArr, allocArr, List.getD_eq_getElem?_getD, List.getElem?_append_left hr]

/-- Writing through one reference does not disturb a different one. -/
theorem readArr_write_ne (h : ArrayHeap) (i j : Nat) (xs : List JSEvent)
    (hij : i ≠ j) : readArr (writeArr h i xs) j = readArr h j := by
  simp [readArr, writeArr, List.getD_eq_getElem?_getD, List.getElem?_set_ne hij]

/-- Claim C9: `getAllEvents()` returns the stored events in insertion
order as a defensive copy: the returned array has the same contents as
the store's array but is a different reference, and any mutation of the
returned array leaves the store's own array — hence subsequent
`getAllEvents()`/`getEventCount()` results — unchanged. -/
theorem getAllEvents_defensive_copy (h : ArrayHeap) (storeRef : Nat)
    (hlt : storeRef < h.arrs.length) :
    readArr (getAllEventsH h storeRef).1 (getAllEventsH h storeRef).2 =
      readArr h storeRef ∧
    (getAllEventsH h storeRef).2 ≠ storeRef ∧
    (∀ xs : List JSEvent,
      readArr (writeArr (getAllEventsH h storeRef).1
        (getAllEventsH h storeRef).2 xs) storeRef = readArr h storeRef ∧
      getEventCountH (writeArr (getAllEventsH h storeRef).1
        (getAllEventsH h storeRef).2 xs) storeRef = getEventCountH h storeRef) := by
  have hne : (getAllEventsH h storeRef).2 ≠ storeRef := by
    simp only [getAllEventsH, allocArr]
    omega
  refine ⟨readArr_alloc_fresh h (readArr h storeRef), hne, fun xs => ?_⟩
  have hkeep : readArr (writeArr (getAllEventsH h storeRef).1
      (getAllEventsH h storeRef).2 xs) storeRef = readArr h storeRef := by
    rw [readArr_write_ne _ _ _ _ hne]
    exact readArr_alloc_old h (readArr h storeRef) storeRef hlt
  exact ⟨hkeep, by simp [getEventCountH, hkeep]⟩

/-- Witness for C9: on the concrete one-array heap, the copy returned by
`getAllEvents` matches the store's array, and emptying the copy leaves
the store's array intact. -/
theorem getAllEvents_defensive_copy_witness :
    readArr (getAllEventsH heap1 0).1 (getAllEventsH heap1 0).2 = [e1] ∧
    readArr (writeArr (getAllEventsH heap1 0).1 (getAllEventsH heap1 0).2 []) 0 =
      [e1] ∧
    getEventCountH (writeArr (getAllEventsH heap1 0).1
      (getAllEventsH heap1 0).2 []) 0 = 1 :=
  ⟨(getAllEvents_defensive_copy heap1 0 (by decide)).1,
   ((getAllEvents_defensive_copy heap1 0 (by decide)).2.2 []).1,
   ((getAllEvents_defensive_copy heap1 0 (by decide)).2.2 []).2⟩

end KafkaMicroservice
